import Mathlib

/-!
Verification development for the xmailer repository (src/xmailer.go), a small
SMTP submission client.  The Go source is shallowly embedded below:

* `Attachment` / `Message` mirror the structs in xmailer.go (byte slices are
  `List Nat` with values `< 256`; the nilable `Content []byte` field becomes
  `Option (List Nat)`).
* `payload` embeds `Message.payload` (xmailer.go:302-384).  The Go code builds
  one string with sequential `WriteString` calls and returns `(nil, err)` as
  soon as an attachment read fails; since the partially built string is
  discarded on failure, this is embedded as an `Option String` that
  concatenates the same pieces in the same order.  The out-of-repo inputs of
  `payload` — the message id (`generateMessageID`), the formatted date
  (`time.Now().Format`), the process-global boundary, and the file system read
  (`readFile`) — are explicit parameters (`mid`, `date`, `b`, `fs`).
* `send` embeds `XMailer.Send` (xmailer.go:100-143) as a trace of the network
  commands it issues on the smtp client, under the assumption that the server
  accepts every MAIL/RCPT/DATA command (server rejections are out of scope for
  the claims below; the only failure sources modelled are validation, the
  attachment read inside `payload`, and a nil client).  The `defer w.Close()`
  is the trailing `dataClose` event on every path that reached `Data()`.
* `generateBoundary` (xmailer.go:410-414) calls the Go standard library's
  `multipart.NewWriter(buf).Boundary()`, which returns a random token; that
  external randomness is the explicit `rand` parameter.  `ProcState` models
  the package-level `var boundary = generateBoundary()` (xmailer.go:54):
  the token is computed once at process start and no operation of the
  package ever writes to it.
* `base64Encode` / `base64Decode` embed `base64.StdEncoding.EncodeToString`
  and its inverse (standard alphabet, `=` padding).
-/

namespace Xmailer

/-- A file-system read (models `readFile`, xmailer.go:435-452): maps a path to
its byte content, or `none` when the read fails. -/
abbrev FS := String → Option (List Nat)

/-- Mirrors `type Attachment struct` (xmailer.go:24-29); `content` is the
nilable `Content []byte` field. -/
structure Attachment where
  ContentType : String
  FileName : String
  BaseName : String
  Content : Option (List Nat)
deriving DecidableEq

/-- Mirrors `type Message struct` (xmailer.go:42-52). -/
structure Message where
  Subject : String
  FromAddr : String
  FromName : String
  To : List String
  CC : List String
  Bcc : List String
  Text : String
  HTML : String
  Attachments : List Attachment
deriving DecidableEq

def crlf : String := "\r\n"

/-- An open (non-terminating) multipart delimiter line, the only delimiter
form the Go code ever writes (`fmt.Sprintf("--%s\r\n", boundary)`). -/
def openDelim (b : String) : String := "--" ++ b ++ crlf

/-- A closing multipart terminator `--boundary--`; never produced by the
code, used only to state its absence. -/
def closeDelim (b : String) : String := "--" ++ b ++ "--"

/-! ## Base64 (standard alphabet), embedding `base64.StdEncoding` -/

def b64Alphabet : List Char :=
  "ABCDEFGHIJKLMNOPQRSTUVWXYZabcdefghijklmnopqrstuvwxyz0123456789+/".toList

def sextetChar (n : Nat) : Char := b64Alphabet.getD n 'A'

def sextetIdx (c : Char) : Option Nat := b64Alphabet.indexOf? c

/-- `base64.StdEncoding.EncodeToString`: 3 input bytes become 4 characters;
a final group of 1 or 2 bytes is padded with `=`. -/
def base64Encode : List Nat → List Char
  | [] => []
  | [a] => [sextetChar (a / 4), sextetChar (a % 4 * 16), '=', '=']
  | [a, b] => [sextetChar (a / 4), sextetChar (a % 4 * 16 + b / 16),
      sextetChar (b % 16 * 4), '=']
  | a :: b :: c :: rest =>
      sextetChar (a / 4) :: sextetChar (a % 4 * 16 + b / 16) ::
      sextetChar (b % 16 * 4 + c / 64) :: sextetChar (c % 64) :: base64Encode rest

def base64EncodeString (bs : List Nat) : String := String.mk (base64Encode bs)

/-- Standard base64 decoder (inverse of `base64Encode`): 4 characters become
3 bytes; `=` padding is only legal in the final group. -/
def base64Decode : List Char → Option (List Nat)
  | [] => some []
  | c1 :: c2 :: c3 :: c4 :: rest =>
      match sextetIdx c1, sextetIdx c2 with
      | some s1, some s2 =>
        if c3 = '=' then
          if c4 = '=' ∧ rest = [] then some [s1 * 4 + s2 / 16] else none
        else
          match sextetIdx c3 with
          | some s3 =>
            if c4 = '=' then
              if rest = [] then some [s1 * 4 + s2 / 16, s2 % 16 * 16 + s3 / 4]
              else none
            else
              match sextetIdx c4, base64Decode rest with
              | some s4, some tail =>
                  some ((s1 * 4 + s2 / 16) :: (s2 % 16 * 16 + s3 / 4) ::
                    (s3 % 4 * 64 + s4) :: tail)
              | _, _ => none
          | none => none
      | _, _ => none
  | _ => none

/-! ## The envelope serializer, embedding `Message.payload` -/

/-- Headers emitted before the Content-Type header (xmailer.go:309-318):
Message-Id, Mime-Version, Date, From, To, then CC and BCC each only when
non-empty, comma-joined exactly as `strings.Join(xs, ", ")`. -/
def commonHeaders (mid date : String) (m : Message) : String :=
  "Message-Id: " ++ mid ++ crlf ++
  "Mime-Version: 1.0" ++ crlf ++
  "Date: " ++ date ++ crlf ++
  "From: " ++ m.FromName ++ " <" ++ m.FromAddr ++ ">" ++ crlf ++
  "To: " ++ String.intercalate ", " m.To ++ crlf ++
  (if m.CC ≠ [] then "CC: " ++ String.intercalate ", " m.CC ++ crlf else "") ++
  (if m.Bcc ≠ [] then "BCC: " ++ String.intercalate ", " m.Bcc ++ crlf else "")

def ctMixed (b : String) : String :=
  "Content-Type: multipart/mixed;" ++ crlf ++ " boundary=" ++ b ++ crlf

def ctAlternative (b : String) : String :=
  "Content-Type: multipart/alternative;" ++ crlf ++ " boundary=" ++ b ++ crlf

def ctHtml : String :=
  "Content-Type: text/html; charset=UTF-8" ++ crlf ++
  "Content-Transfer-Encoding: quoted-printable" ++ crlf

def ctPlain : String :=
  "Content-Type: text/plain; charset=UTF-8" ++ crlf ++
  "Content-Transfer-Encoding: quoted-printable" ++ crlf

/-- The shape switch of xmailer.go:323-334: `isMixed` wins over
`isAlternative`, then HTML-only, else plain. -/
def contentTypeHeader (b : String) (m : Message) : String :=
  if m.Attachments ≠ [] then ctMixed b
  else if m.Text ≠ "" ∧ m.HTML ≠ "" then ctAlternative b
  else if m.HTML ≠ "" then ctHtml
  else ctPlain

/-- `isMixed || isAlternative` (xmailer.go:320-321, 338, 343, 348). -/
def multiPart (m : Message) : Prop :=
  m.Attachments ≠ [] ∨ (m.Text ≠ "" ∧ m.HTML ≠ "")

instance (m : Message) : Decidable (multiPart m) := by
  unfold multiPart; infer_instance

/-- Body section of the envelope after the Subject header
(xmailer.go:338-362): the opening delimiter when multi-part, then the text
part when present, then the HTML part when present, each part followed by an
open delimiter in the multi-part shapes.  The part text is written through
verbatim — no quoted-printable transformation is applied. -/
def bodyBlock (b : String) (m : Message) : String :=
  (if multiPart m then crlf ++ openDelim b else "") ++
  (if m.Text ≠ "" then
      (if multiPart m then ctPlain else "") ++
      crlf ++ m.Text ++ crlf ++
      (if multiPart m then openDelim b else "")
    else "") ++
  (if m.HTML ≠ "" then
      (if multiPart m then ctHtml else "") ++
      crlf ++ m.HTML ++ crlf ++
      (if multiPart m then openDelim b else "")
    else "")

/-- Sequential accumulation of string pieces, as the Go `strings.Builder`
does for the attachment loop and as a header sequence below. -/
def joinLines : List String → String
  | [] => ""
  | s :: rest => s ++ joinLines rest

/-- Attachment resolution (xmailer.go:366-372): bytes already present are
used as-is, otherwise the source file is read. -/
def resolveContent (fs : FS) (a : Attachment) : Option (List Nat) :=
  match a.Content with
  | some c => some c
  | none => fs a.FileName

/-- One attachment part (xmailer.go:374-379): disposition, content id,
base64 declaration, content type, blank line, base64 body, delimiter. -/
def attChunk (b : String) (a : Attachment) (content : List Nat) : String :=
  "Content-Disposition: attachment;" ++ crlf ++
  " filename=\"" ++ a.BaseName ++ "\"" ++ crlf ++
  "Content-Id: <" ++ a.BaseName ++ ">" ++ crlf ++
  "Content-Transfer-Encoding: base64" ++ crlf ++
  "Content-Type: " ++ a.ContentType ++ crlf ++ crlf ++
  base64EncodeString content ++
  crlf ++ openDelim b

/-- The attachment loop (xmailer.go:364-381): resolve each attachment in
order, failing at the first unreadable one. -/
def buildChunks (fs : FS) (b : String) : List Attachment → Option (List String)
  | [] => some []
  | a :: rest =>
      match resolveContent fs a with
      | none => none
      | some content =>
          (buildChunks fs b rest).map (fun cs => attChunk b a content :: cs)

/-- `Message.payload` (xmailer.go:302-384).  `mid`, `date`, `b` stand for the
generated message id, the formatted current date, and the process-global
boundary; `fs` is the file-system read used for attachments whose bytes are
absent.  Returns `none` exactly when an attachment read fails (the Go code
then returns `(nil, err)`, discarding the partially built string). -/
def payload (fs : FS) (mid date b : String) (m : Message) : Option String :=
  (buildChunks fs b m.Attachments).map
    (fun cs =>
      commonHeaders mid date m ++
      contentTypeHeader b m ++
      "Subject: " ++ m.Subject ++ crlf ++
      bodyBlock b m ++
      joinLines cs)

/-- The header lines the specification lists for the wire payload, in the
order and with the membership the spec states (spec §6: Message-Id,
Mime-Version, Date, From, To, CC if present, Content-Type, Subject — and no
others).  This definition follows the SPEC's words, to be compared with the
code's `payload`. -/
def specHeaderLines (mid date b : String) (m : Message) : List String :=
  ["Message-Id: " ++ mid ++ crlf,
   "Mime-Version: 1.0" ++ crlf,
   "Date: " ++ date ++ crlf,
   "From: " ++ m.FromName ++ " <" ++ m.FromAddr ++ ">" ++ crlf,
   "To: " ++ String.intercalate ", " m.To ++ crlf] ++
  (if m.CC ≠ [] then ["CC: " ++ String.intercalate ", " m.CC ++ crlf] else []) ++
  [contentTypeHeader b m,
   "Subject: " ++ m.Subject ++ crlf]

/-- The header lines the CODE emits, in emission order (xmailer.go:309-336):
as `specHeaderLines`, plus a BCC header between CC and Content-Type whenever
the BCC list is non-empty (xmailer.go:316-318). -/
def codeHeaderLines (mid date b : String) (m : Message) : List String :=
  ["Message-Id: " ++ mid ++ crlf,
   "Mime-Version: 1.0" ++ crlf,
   "Date: " ++ date ++ crlf,
   "From: " ++ m.FromName ++ " <" ++ m.FromAddr ++ ">" ++ crlf,
   "To: " ++ String.intercalate ", " m.To ++ crlf] ++
  (if m.CC ≠ [] then ["CC: " ++ String.intercalate ", " m.CC ++ crlf] else []) ++
  (if m.Bcc ≠ [] then ["BCC: " ++ String.intercalate ", " m.Bcc ++ crlf] else []) ++
  [contentTypeHeader b m,
   "Subject: " ++ m.Subject ++ crlf]

/-! ## The SMTP transaction, embedding `XMailer.Send` -/

/-- A network command issued on the smtp client during `Send`. -/
inductive NetEvent where
  | dialAttempt
  | mail (addr : String)
  | rcpt (addr : String)
  | dataOpen
  | dataWrite (s : String)
  | dataClose
deriving DecidableEq

inductive Outcome where
  | ok
  | validationError (msg : String)
  | payloadError
  | nilClientPanic (op : String)
deriving DecidableEq

/-- The mutable fields of `XMailer` that `Send` consults: `dialed`
(xmailer.go:37) and whether `client` is non-nil. -/
structure MailerState where
  dialed : Bool
  hasClient : Bool
deriving DecidableEq

/-- External world for `Dial`: whether `smtp.Dial` succeeds.  On failure the
client field is left unchanged (nil if never set). -/
structure Env where
  dialWorks : Bool
deriving DecidableEq

structure SendResult where
  finalState : MailerState
  events : List NetEvent
  outcome : Outcome
deriving DecidableEq

/-- `XMailer.Send` (xmailer.go:100-143).  Steps, in source order: implicit
auto-dial when not yet dialed, with the returned error DISCARDED
(xmailer.go:102-104); From validation; To validation; empty-subject
defaulting to "无题"; `client.Mail`; `client.Rcpt` for each To entry in
order; `client.Data`; `payload`; write; deferred close.  The server is
assumed to accept every command; a nil client turns the `Mail` call into a
nil-pointer panic, recorded as `Outcome.nilClientPanic "Mail"`. -/
def send (env : Env) (st : MailerState) (fs : FS) (mid date b : String)
    (m : Message) : SendResult :=
  let ev0 : List NetEvent := if st.dialed then [] else [NetEvent.dialAttempt]
  let hasClient : Bool :=
    if st.dialed then st.hasClient
    else if env.dialWorks then true else st.hasClient
  let st' : MailerState :=
    { dialed := if st.dialed then true else env.dialWorks
      hasClient := hasClient }
  if m.FromAddr = "" then
    { finalState := st', events := ev0
      outcome := Outcome.validationError "Must specify the From address" }
  else if m.To = [] then
    { finalState := st', events := ev0
      outcome := Outcome.validationError "Must specify at least one To address" }
  else
    let m' := { m with Subject := if m.Subject = "" then "无题" else m.Subject }
    if hasClient then
      let ev1 := ev0 ++ [NetEvent.mail m'.FromAddr] ++
        m'.To.map NetEvent.rcpt ++ [NetEvent.dataOpen]
      match payload fs mid date b m' with
      | none =>
          { finalState := st', events := ev1 ++ [NetEvent.dataClose]
            outcome := Outcome.payloadError }
      | some s =>
          { finalState := st'
            events := ev1 ++ [NetEvent.dataWrite s, NetEvent.dataClose]
            outcome := Outcome.ok }
    else
      { finalState := st', events := ev0
        outcome := Outcome.nilClientPanic "Mail" }

/-- The RCPT addresses of a trace, in order. -/
def rcptAddrs (evs : List NetEvent) : List String :=
  evs.filterMap (fun e => match e with
    | NetEvent.rcpt a => some a
    | _ => none)

/-- Does the trace contain any transaction-level command (anything beyond
the connection attempt)? -/
def transactionFree (evs : List NetEvent) : Prop :=
  ∀ e ∈ evs, e = NetEvent.dialAttempt

/-! ## Process-wide boundary state, embedding `var boundary` -/

/-- `generateBoundary` (xmailer.go:410-414) returns
`multipart.NewWriter(buf).Boundary()`, a random token from the Go standard
library; the external randomness is the explicit argument. -/
def generateBoundary (rand : String) : String := rand

/-- Process-level state: the package-global `boundary` (xmailer.go:54) plus
one mailer's mutable state.  No function in the package ever assigns to
`boundary` after its initialization. -/
structure ProcState where
  boundary : String
  mailer : MailerState

/-- Process start: `var boundary = generateBoundary()` runs exactly once. -/
def initProc (rand : String) (st0 : MailerState) : ProcState :=
  { boundary := generateBoundary rand, mailer := st0 }

/-- A `Send` performed in a process: the serializer always receives the
process-global boundary; `Send` never writes to it. -/
def procSend (env : Env) (fs : FS) (mid date : String) (p : ProcState)
    (m : Message) : ProcState × SendResult :=
  let r := send env p.mailer fs mid date p.boundary m
  ({ boundary := p.boundary, mailer := r.finalState }, r)

/-- A sequence of sends in one process. -/
def runSends (env : Env) (fs : FS) (mid date : String) (ms : List Message)
    (p : ProcState) : ProcState :=
  ms.foldl (fun q m => (procSend env fs mid date q m).1) p

/-! ## Concrete fixtures used by counterexamples and witnesses -/

/-- A file system on which every read fails. -/
def fsNone : FS := fun _ => none

/-- A mailer that has already dialed successfully. -/
def stReady : MailerState := { dialed := true, hasClient := true }

/-- A mailer that has never dialed and holds a nil client. -/
def stFresh : MailerState := { dialed := false, hasClient := false }

def envUp : Env := { dialWorks := true }

def envDown : Env := { dialWorks := false }

/-- The spec §8 plain-text scenario message. -/
def mPlainScenario : Message :=
  { Subject := "s", FromAddr := "a@x.com", FromName := "A", To := ["b@y.com"],
    CC := [], Bcc := [], Text := "hi", HTML := "", Attachments := [] }

/-- An attachment whose bytes are absent and whose source file read fails. -/
def attBroken : Attachment :=
  { ContentType := "application/octet-stream", FileName := "f.bin",
    BaseName := "f.bin", Content := none }

/-- A message carrying only the unreadable attachment. -/
def mBrokenAtt : Message :=
  { Subject := "s", FromAddr := "a@x.com", FromName := "A", To := ["b@y.com"],
    CC := [], Bcc := [], Text := "", HTML := "", Attachments := [attBroken] }

/-- A message with a non-empty BCC list and no CC. -/
def mWithBcc : Message :=
  { Subject := "s", FromAddr := "a@x.com", FromName := "A", To := ["b@y.com"],
    CC := [], Bcc := ["c@z.com"], Text := "hi", HTML := "", Attachments := [] }

/-- The spec §8 attachment scenario message: html body plus one attachment
whose bytes are the two characters `AB` (65, 66). -/
def attAB : Attachment :=
  { ContentType := "text/plain; charset=utf-8", FileName := "f.txt",
    BaseName := "f.txt", Content := some [65, 66] }

def mAttScenario : Message :=
  { Subject := "s", FromAddr := "a@x.com", FromName := "A", To := ["b@y.com"],
    CC := [], Bcc := [], Text := "", HTML := "<b>hi</b>",
    Attachments := [attAB] }

/-- A message with both a text and an html body and no attachments. -/
def mAlt : Message :=
  { Subject := "s", FromAddr := "a@x.com", FromName := "A", To := ["b@y.com"],
    CC := [], Bcc := [], Text := "hi", HTML := "<b>hi</b>", Attachments := [] }

/-- A message with cc and bcc entries distinct from the To list. -/
def mWithCcBcc : Message :=
  { Subject := "s", FromAddr := "a@x.com", FromName := "A", To := ["b@y.com"],
    CC := ["c@z.com"], Bcc := ["d@w.com"], Text := "hi", HTML := "",
    Attachments := [] }

/-- A message with an empty To list. -/
def mNoTo : Message :=
  { Subject := "s", FromAddr := "a@x.com", FromName := "A", To := [],
    CC := [], Bcc := [], Text := "hi", HTML := "", Attachments := [] }

/-! ## Base64 lemmas -/

theorem sextetIdx_sextetChar : ∀ n, n < 64 → sextetIdx (sextetChar n) = some n := by
  decide

theorem sextetChar_ne_pad : ∀ n, n < 64 → sextetChar n ≠ '=' := by
  decide

/-- Decoding inverts encoding on genuine byte lists (every element `< 256`),
which is the shape `[]byte` guarantees in the Go source. -/
theorem base64_roundtrip : ∀ bs : List Nat, (∀ x ∈ bs, x < 256) →
    base64Decode (base64Encode bs) = some bs
  | [], _ => rfl
  | [a], h => by
      have ha : a < 256 := h a (by simp)
      have h1 := sextetIdx_sextetChar (a / 4) (by omega)
      have h2 := sextetIdx_sextetChar (a % 4 * 16) (by omega)
      simp only [base64Encode, base64Decode, h1, h2]
      simp only [reduceIte, and_self, if_true, Option.some.injEq, List.cons.injEq,
        and_true]
      omega
  | [a, b], h => by
      have ha : a < 256 := h a (by simp)
      have hb : b < 256 := h b (by simp)
      have h1 := sextetIdx_sextetChar (a / 4) (by omega)
      have h2 := sextetIdx_sextetChar (a % 4 * 16 + b / 16) (by omega)
      have h3 := sextetIdx_sextetChar (b % 16 * 4) (by omega)
      have hne := sextetChar_ne_pad (b % 16 * 4) (by omega)
      simp only [base64Encode, base64Decode, h1, h2, h3]
      rw [if_neg hne]
      simp only [reduceIte, Option.some.injEq, List.cons.injEq, and_true]
      omega
  | a :: b :: c :: rest, h => by
      have ha : a < 256 := h a (by simp)
      have hb : b < 256 := h b (by simp)
      have hc : c < 256 := h c (by simp)
      have ih := base64_roundtrip rest (fun x hx => h x (by simp [hx]))
      have h1 := sextetIdx_sextetChar (a / 4) (by omega)
      have h2 := sextetIdx_sextetChar (a % 4 * 16 + b / 16) (by omega)
      have h3 := sextetIdx_sextetChar (b % 16 * 4 + c / 64) (by omega)
      have h4 := sextetIdx_sextetChar (c % 64) (by omega)
      have hne3 := sextetChar_ne_pad (b % 16 * 4 + c / 64) (by omega)
      have hne4 := sextetChar_ne_pad (c % 64) (by omega)
      simp only [base64Encode, base64Decode, h1, h2, h3, h4]
      rw [if_neg hne3, if_neg hne4]
      simp only [ih, Option.some.injEq, List.cons.injEq]
      refine ⟨by omega, by omega, by omega, trivial⟩

/-! ## Envelope shape lemmas -/

theorem buildChunks_of_present (fs : FS) (b : String) :
    ∀ atts : List Attachment, (∀ a ∈ atts, a.Content.isSome) →
      buildChunks fs b atts =
        some (atts.map (fun a => attChunk b a (a.Content.getD [])))
  | [], _ => rfl
  | a :: rest, h => by
      obtain ⟨c, hc⟩ := Option.isSome_iff_exists.mp (h a (by simp))
      have ih := buildChunks_of_present fs b rest
        (fun x hx => h x (List.mem_cons_of_mem a hx))
      simp [buildChunks, resolveContent, hc, ih]

/-- Decomposition of a successful chunk build over a non-empty list. -/
theorem buildChunks_cons (fs : FS) (b : String) (a : Attachment)
    (rest : List Attachment) (cs : List String)
    (h : buildChunks fs b (a :: rest) = some cs) :
    ∃ c cs', resolveContent fs a = some c ∧ buildChunks fs b rest = some cs' ∧
      cs = attChunk b a c :: cs' := by
  simp only [buildChunks] at h
  cases hr : resolveContent fs a with
  | none => rw [hr] at h; simp at h
  | some c =>
      rw [hr] at h
      simp only [Option.map_eq_some'] at h
      obtain ⟨cs', hcs', hcons⟩ := h
      exact ⟨c, cs', rfl, hcs', hcons.symm⟩

/-- Every chunk a successful build produces is an attachment part. -/
theorem buildChunks_mem (fs : FS) (b : String) :
    ∀ (atts : List Attachment) (cs : List String),
      buildChunks fs b atts = some cs →
      ∀ x ∈ cs, ∃ a content, x = attChunk b a content
  | [], cs, h => by
      simp only [buildChunks, Option.some.injEq] at h
      subst h; simp
  | a :: rest, cs, h => by
      obtain ⟨c, cs', _, hcs', hcons⟩ := buildChunks_cons fs b a rest cs h
      subst hcons
      intro x hx
      rcases List.mem_cons.mp hx with hx | hx
      · exact ⟨a, c, hx⟩
      · exact buildChunks_mem fs b rest cs' hcs' x hx

theorem payload_plain_eq (fs : FS) (mid date b : String) (m : Message)
    (hatt : m.Attachments = []) (hhtml : m.HTML = "") :
    payload fs mid date b m =
      some (commonHeaders mid date m ++ ctPlain ++
        "Subject: " ++ m.Subject ++ crlf ++
        (if m.Text ≠ "" then crlf ++ m.Text ++ crlf else "")) := by
  simp [payload, buildChunks, hatt, contentTypeHeader, bodyBlock, multiPart,
    hhtml, joinLines, String.append_assoc]

theorem payload_alt_eq (fs : FS) (mid date b : String) (m : Message)
    (hatt : m.Attachments = []) (ht : m.Text ≠ "") (hh : m.HTML ≠ "") :
    payload fs mid date b m =
      some (commonHeaders mid date m ++ ctAlternative b ++
        "Subject: " ++ m.Subject ++ crlf ++
        crlf ++ openDelim b ++
        ctPlain ++ crlf ++ m.Text ++ crlf ++ openDelim b ++
        ctHtml ++ crlf ++ m.HTML ++ crlf ++ openDelim b) := by
  simp [payload, buildChunks, hatt, contentTypeHeader, bodyBlock, multiPart,
    ht, hh, joinLines, String.append_assoc]

theorem payload_mixed_eq (fs : FS) (mid date b : String) (m : Message)
    (cs : List String) (hatt : m.Attachments ≠ [])
    (hcs : buildChunks fs b m.Attachments = some cs) :
    payload fs mid date b m =
      some (commonHeaders mid date m ++ ctMixed b ++
        "Subject: " ++ m.Subject ++ crlf ++
        bodyBlock b m ++ joinLines cs) := by
  simp [payload, hcs, contentTypeHeader, hatt]

/-- A concatenation of pieces that each end in the open delimiter itself
ends in the open delimiter. -/
theorem joinLines_ends_open (b : String) :
    ∀ cs : List String, cs ≠ [] → (∀ x ∈ cs, ∃ q, x = q ++ openDelim b) →
      ∃ Q, joinLines cs = Q ++ openDelim b
  | [], h, _ => absurd rfl h
  | [x], _, hall => by
      obtain ⟨q, hq⟩ := hall x (by simp)
      exact ⟨q, by simp [joinLines, hq]⟩
  | x :: y :: t, _, hall => by
      obtain ⟨Q, hQ⟩ := joinLines_ends_open b (y :: t) (by simp)
        (fun z hz => hall z (List.mem_cons_of_mem x hz))
      refine ⟨x ++ Q, ?_⟩
      have hstep : joinLines (x :: y :: t) = x ++ joinLines (y :: t) := rfl
      rw [hstep, hQ, String.append_assoc]

/-- A string ending in the open delimiter `--b<CRLF>` never ends in the
closing terminator line `--b--<CRLF>`, provided the boundary token is
non-empty and dash-free (as the random hex tokens of the Go standard
library are). -/
theorem no_close_suffix (b : String) (hb : b ≠ "") (hd : '-' ∉ b.data)
    (Q R : String) : Q ++ openDelim b ≠ R ++ (closeDelim b ++ crlf) := by
  intro h
  have d2 : ("--" : String).data = ['-', '-'] := rfl
  have dcrlf : (crlf : String).data = ['\r', '\n'] := rfl
  have hdata := congrArg String.data h
  simp only [String.data_append, openDelim, closeDelim, d2, dcrlf,
    List.append_assoc, List.cons_append, List.nil_append] at hdata
  have hlen := congrArg List.length hdata
  simp only [List.length_append, List.length_cons] at hlen
  have hQR : Q.data.length = R.data.length + 2 := by omega
  have hdrop := congrArg (List.drop Q.data.length) hdata
  rw [List.drop_left, hQR, List.drop_append 2] at hdrop
  rw [show List.drop 2 ('-' :: '-' :: (b.data ++ ['-', '-', '\r', '\n'])) =
    b.data ++ ['-', '-', '\r', '\n'] from rfl] at hdrop
  cases hbd : b.data with
  | nil =>
      apply hb
      cases b with
      | mk l =>
          have hl : l = [] := hbd
          rw [hl]
  | cons hc tl =>
      rw [hbd] at hdrop
      simp only [List.cons_append, List.cons.injEq] at hdrop
      exact hd (by rw [hbd, ← hdrop.1]; exact List.mem_cons_self '-' tl)

/-- An attachment chunk splits off its final open delimiter. -/
theorem attChunk_split (b : String) (a : Attachment) (content : List Nat) :
    attChunk b a content =
      ("Content-Disposition: attachment;" ++ crlf ++
       " filename=\"" ++ a.BaseName ++ "\"" ++ crlf ++
       "Content-Id: <" ++ a.BaseName ++ ">" ++ crlf ++
       "Content-Transfer-Encoding: base64" ++ crlf ++
       "Content-Type: " ++ a.ContentType ++ crlf ++ crlf ++
       base64EncodeString content ++ crlf) ++ openDelim b := rfl

/-! ## Claims -/

/-- C4: for every message with no attachments and no HTML body, the envelope
declares Content-Type text/plain, contains exactly one body section holding
the input text verbatim (the declared quoted-printable encoding is never
applied to it), and contains no boundary delimiter lines — the envelope is
entirely independent of the boundary token. -/
theorem C4_plain_envelope (fs : FS) (mid date b : String) (m : Message)
    (hatt : m.Attachments = []) (hhtml : m.HTML = "") :
    payload fs mid date b m =
      some (commonHeaders mid date m ++
        ("Content-Type: text/plain; charset=UTF-8" ++ crlf ++
         "Content-Transfer-Encoding: quoted-printable" ++ crlf) ++
        "Subject: " ++ m.Subject ++ crlf ++
        (if m.Text ≠ "" then crlf ++ m.Text ++ crlf else "")) ∧
    ∀ b2, payload fs mid date b2 m = payload fs mid date b m := by
  refine ⟨payload_plain_eq fs mid date b m hatt hhtml, fun b2 => ?_⟩
  rw [payload_plain_eq fs mid date b2 m hatt hhtml,
    payload_plain_eq fs mid date b m hatt hhtml]

/-- C5: for every message with both a non-empty text body and a non-empty
HTML body and no attachments, the envelope declares multipart/alternative
and contains exactly two parts, the plain part before the HTML part, each
introduced by its own open boundary delimiter line. -/
theorem C5_alternative_two_parts (fs : FS) (mid date b : String) (m : Message)
    (hatt : m.Attachments = []) (ht : m.Text ≠ "") (hh : m.HTML ≠ "") :
    payload fs mid date b m =
      some (commonHeaders mid date m ++
        ("Content-Type: multipart/alternative;" ++ crlf ++
         " boundary=" ++ b ++ crlf) ++
        "Subject: " ++ m.Subject ++ crlf ++
        crlf ++ openDelim b ++
        ctPlain ++ crlf ++ m.Text ++ crlf ++ openDelim b ++
        ctHtml ++ crlf ++ m.HTML ++ crlf ++ openDelim b) :=
  payload_alt_eq fs mid date b m hatt ht hh

/-- C3: for every message with attachments whose bytes are all present, the
envelope declares multipart/mixed, each attachment part carries the base64
encoding of its bytes, and decoding that base64 body returns the original
bytes exactly (round-trip law). -/
theorem C3_mixed_base64_roundtrip (fs : FS) (mid date b : String)
    (m : Message) (hatt : m.Attachments ≠ [])
    (hcontent : ∀ a ∈ m.Attachments,
      ∃ bs, a.Content = some bs ∧ ∀ x ∈ bs, x < 256) :
    payload fs mid date b m =
      some (commonHeaders mid date m ++
        ("Content-Type: multipart/mixed;" ++ crlf ++
         " boundary=" ++ b ++ crlf) ++
        "Subject: " ++ m.Subject ++ crlf ++
        bodyBlock b m ++
        joinLines (m.Attachments.map
          (fun a => attChunk b a (a.Content.getD [])))) ∧
    ∀ a ∈ m.Attachments,
      base64Decode (base64Encode (a.Content.getD [])) =
        some (a.Content.getD []) := by
  have hsome : ∀ a ∈ m.Attachments, a.Content.isSome := by
    intro a ha
    obtain ⟨bs, hbs, _⟩ := hcontent a ha
    simp [hbs]
  refine ⟨payload_mixed_eq fs mid date b m _ hatt
    (buildChunks_of_present fs b m.Attachments hsome), ?_⟩
  intro a ha
  obtain ⟨bs, hbs, hlt⟩ := hcontent a ha
  rw [hbs]
  simpa using base64_roundtrip bs hlt

/-- C2 counterexample: the header sequence the spec states (Message-Id,
Mime-Version, Date, From, To, CC if present, Content-Type, Subject and no
others) is NOT what the code emits for a message with a non-empty BCC list:
the code inserts a BCC header before Content-Type. -/
theorem C2_counterexample :
    ¬ (payload fsNone "M" "D" "B" mWithBcc =
      (buildChunks fsNone "B" mWithBcc.Attachments).map
        (fun cs => joinLines (specHeaderLines "M" "D" "B" mWithBcc) ++
          bodyBlock "B" mWithBcc ++ joinLines cs)) := by
  set_option maxRecDepth 16000 in decide

/-- C2 (amended): the envelope emits its headers in exactly this order and
no others before the body: Message-Id, Mime-Version, Date, From, To, CC
(only if the CC list is non-empty), BCC (only if the BCC list is non-empty),
Content-Type (shape-dependent), Subject, then the body. -/
theorem C2_header_emission_order (fs : FS) (mid date b : String)
    (m : Message) :
    payload fs mid date b m =
      (buildChunks fs b m.Attachments).map
        (fun cs => joinLines (codeHeaderLines mid date b m) ++
          bodyBlock b m ++ joinLines cs) := by
  have hhdr : joinLines (codeHeaderLines mid date b m) =
      commonHeaders mid date m ++ contentTypeHeader b m ++
      "Subject: " ++ m.Subject ++ crlf := by
    by_cases hcc : m.CC = [] <;> by_cases hbcc : m.Bcc = [] <;>
      simp [codeHeaderLines, commonHeaders, joinLines, hcc, hbcc,
        String.append_assoc]
  cases h : buildChunks fs b m.Attachments with
  | none => simp [payload, h]
  | some cs => simp [payload, h, hhdr, String.append_assoc]

/-- C8: every boundary delimiter emitted into a multi-part envelope has the
open form --boundary; the envelope ends with an open delimiter line and is
never closed with a --boundary-- terminator line, including after the last
part (boundary tokens are non-empty and dash-free, as the standard library's
random hex tokens are). -/
theorem C8_open_boundary_delimiters (fs : FS) (mid date b : String)
    (m : Message) (s : String) (hmp : multiPart m)
    (hs : payload fs mid date b m = some s)
    (hb : b ≠ "") (hd : '-' ∉ b.data) :
    (∃ Q, s = Q ++ openDelim b) ∧
    ∀ R, s ≠ R ++ (closeDelim b ++ crlf) := by
  have hQ : ∃ Q, s = Q ++ openDelim b := by
    by_cases hatt : m.Attachments = []
    · rcases hmp with h | ⟨ht, hh⟩
      · exact absurd hatt h
      · rw [payload_alt_eq fs mid date b m hatt ht hh] at hs
        exact ⟨_, (Option.some.inj hs).symm⟩
    · simp only [payload] at hs
      obtain ⟨cs, hcs, hfcs⟩ := Option.map_eq_some'.mp hs
      have hcs_ne : cs ≠ [] := by
        cases hatt' : m.Attachments with
        | nil => exact absurd hatt' hatt
        | cons a rest =>
            rw [hatt'] at hcs
            obtain ⟨c, cs', _, _, hcons⟩ := buildChunks_cons fs b a rest cs hcs
            simp [hcons]
      have hall : ∀ x ∈ cs, ∃ q, x = q ++ openDelim b := by
        intro x hx
        obtain ⟨a, content, hx'⟩ := buildChunks_mem fs b m.Attachments cs hcs x hx
        exact ⟨_, by rw [hx', attChunk_split]⟩
      obtain ⟨Q, hQj⟩ := joinLines_ends_open b cs hcs_ne hall
      refine ⟨(commonHeaders mid date m ++ contentTypeHeader b m ++
        "Subject: " ++ m.Subject ++ crlf ++ bodyBlock b m) ++ Q, ?_⟩
      rw [← hfcs, hQj]
      simp only [String.append_assoc]
  obtain ⟨Q, hQeq⟩ := hQ
  refine ⟨⟨Q, hQeq⟩, fun R hR => ?_⟩
  rw [hQeq] at hR
  exact no_close_suffix b hb hd Q R hR

/-- C7: a message with an empty sender address or an empty To list makes
send fail with a validation error and opens no transaction: no MAIL, no
RCPT, and no DATA command is issued on the connection. -/
theorem C7_validation_no_transaction (env : Env) (st : MailerState) (fs : FS)
    (mid date b : String) (m : Message)
    (h : m.FromAddr = "" ∨ m.To = []) :
    (∃ emsg, (send env st fs mid date b m).outcome =
      Outcome.validationError emsg) ∧
    transactionFree (send env st fs mid date b m).events := by
  unfold send transactionFree
  rcases h with h | h <;> by_cases hdl : st.dialed <;>
    by_cases hf : m.FromAddr = "" <;> simp_all

/-- Extracting RCPT addresses distributes over trace concatenation. -/
theorem rcptAddrs_append (l1 l2 : List NetEvent) :
    rcptAddrs (l1 ++ l2) = rcptAddrs l1 ++ rcptAddrs l2 := by
  simp [rcptAddrs]

theorem rcptAddrs_nil : rcptAddrs [] = [] := rfl

theorem rcptAddrs_cons_dial (l : List NetEvent) :
    rcptAddrs (NetEvent.dialAttempt :: l) = rcptAddrs l := rfl

theorem rcptAddrs_cons_mail (a : String) (l : List NetEvent) :
    rcptAddrs (NetEvent.mail a :: l) = rcptAddrs l := rfl

theorem rcptAddrs_cons_rcpt (a : String) (l : List NetEvent) :
    rcptAddrs (NetEvent.rcpt a :: l) = a :: rcptAddrs l := rfl

theorem rcptAddrs_cons_dataOpen (l : List NetEvent) :
    rcptAddrs (NetEvent.dataOpen :: l) = rcptAddrs l := rfl

theorem rcptAddrs_cons_dataWrite (s : String) (l : List NetEvent) :
    rcptAddrs (NetEvent.dataWrite s :: l) = rcptAddrs l := rfl

theorem rcptAddrs_cons_dataClose (l : List NetEvent) :
    rcptAddrs (NetEvent.dataClose :: l) = rcptAddrs l := rfl

/-- A pure RCPT block extracts to exactly its address list. -/
theorem rcptAddrs_map_rcpt : ∀ l : List String,
    rcptAddrs (l.map NetEvent.rcpt) = l
  | [] => rfl
  | x :: xs => by
      rw [List.map_cons, rcptAddrs_cons_rcpt, rcptAddrs_map_rcpt xs]

/-- C6: the protocol-level recipient declarations issued by send are exactly
the To list, in order; a CC or BCC entry that is not also a To entry never
receives an RCPT command, even though CC/BCC appear in the envelope
headers. -/
theorem C6_rcpt_exactly_to_list (env : Env) (st : MailerState) (fs : FS)
    (mid date b : String) (m : Message)
    (hdl : st.dialed = true) (hcl : st.hasClient = true)
    (hf : m.FromAddr ≠ "") (ht : m.To ≠ []) :
    rcptAddrs (send env st fs mid date b m).events = m.To ∧
    ∀ a, (a ∈ m.CC ∨ a ∈ m.Bcc) → a ∉ m.To →
      NetEvent.rcpt a ∉ (send env st fs mid date b m).events := by
  unfold send
  cases hp : payload fs mid date b
      { m with Subject := if m.Subject = "" then "无题" else m.Subject } with
  | none =>
      simp [hdl, hcl, hf, ht, hp, rcptAddrs_append, rcptAddrs_map_rcpt,
        rcptAddrs_nil, rcptAddrs_cons_mail, rcptAddrs_cons_rcpt,
        rcptAddrs_cons_dataOpen, rcptAddrs_cons_dataWrite,
        rcptAddrs_cons_dataClose]
  | some s =>
      simp [hdl, hcl, hf, ht, hp, rcptAddrs_append, rcptAddrs_map_rcpt,
        rcptAddrs_nil, rcptAddrs_cons_mail, rcptAddrs_cons_rcpt,
        rcptAddrs_cons_dataOpen, rcptAddrs_cons_dataWrite,
        rcptAddrs_cons_dataClose]

/-- C1 counterexample: for a message holding an attachment with absent bytes
and an unreadable source file, the attachment read failure does NOT abort
before the transaction: the MAIL, RCPT and DATA commands are all already on
the wire when the read error is returned. -/
theorem C1_counterexample :
    (send envUp stReady fsNone "M" "D" "B" mBrokenAtt).outcome =
      Outcome.payloadError ∧
    NetEvent.mail "a@x.com" ∈
      (send envUp stReady fsNone "M" "D" "B" mBrokenAtt).events ∧
    NetEvent.rcpt "b@y.com" ∈
      (send envUp stReady fsNone "M" "D" "B" mBrokenAtt).events ∧
    NetEvent.dataOpen ∈
      (send envUp stReady fsNone "M" "D" "B" mBrokenAtt).events := by
  decide

/-- C1 (amended): an attachment read failure makes send return the read
error without streaming any envelope bytes (no data write is ever issued),
but only after the sender declaration, the recipient declarations, and the
data-channel open have already been issued on the connection. -/
theorem C1_read_failure_before_data_write (env : Env) (st : MailerState)
    (fs : FS) (mid date b : String) (m : Message)
    (hdl : st.dialed = true) (hcl : st.hasClient = true)
    (hf : m.FromAddr ≠ "") (ht : m.To ≠ [])
    (hp : payload fs mid date b
      { m with Subject := if m.Subject = "" then "无题" else m.Subject } = none) :
    (send env st fs mid date b m).outcome = Outcome.payloadError ∧
    (∀ s, NetEvent.dataWrite s ∉ (send env st fs mid date b m).events) ∧
    NetEvent.mail m.FromAddr ∈ (send env st fs mid date b m).events ∧
    (∀ a ∈ m.To, NetEvent.rcpt a ∈ (send env st fs mid date b m).events) ∧
    NetEvent.dataOpen ∈ (send env st fs mid date b m).events := by
  unfold send
  simp [hdl, hcl, hf, ht, hp]

/-- C10: when send runs on a never-connected session and the implicit
auto-connect fails, the dial error is discarded — send does not return it —
and for a message that passes validation, send proceeds to the sender
declaration on the still-nil client (a nil-pointer panic at the MAIL call),
having issued nothing beyond the dial attempt. -/
theorem C10_dial_error_discarded_nil_client (env : Env) (st : MailerState)
    (fs : FS) (mid date b : String) (m : Message)
    (hnd : st.dialed = false) (hnc : st.hasClient = false)
    (hdial : env.dialWorks = false)
    (hf : m.FromAddr ≠ "") (ht : m.To ≠ []) :
    (send env st fs mid date b m).outcome = Outcome.nilClientPanic "Mail" ∧
    (send env st fs mid date b m).events = [NetEvent.dialAttempt] ∧
    ∀ emsg, (send env st fs mid date b m).outcome ≠
      Outcome.validationError emsg := by
  unfold send
  simp [hnd, hnc, hdial, hf, ht]

/-- Boundary preservation: no sequence of sends changes the process-global
boundary token. -/
theorem runSends_boundary (env : Env) (fs : FS) (mid date : String) :
    ∀ (ms : List Message) (p : ProcState),
      (runSends env fs mid date ms p).boundary = p.boundary
  | [], _ => rfl
  | m :: ms, p => by
      have ih := runSends_boundary env fs mid date ms
        ((procSend env fs mid date p m).1)
      simpa [runSends] using ih

/-- C9: the boundary token is process-wide state generated exactly once: it
is the value produced by the single initialization, no sequence of sends
ever changes it, and any two messages serialized at any two points of the
process are serialized with that same token. -/
theorem C9_boundary_process_constant (env : Env) (fs : FS)
    (mid date rand : String) (st0 : MailerState)
    (ms1 ms2 : List Message) (m1 m2 : Message) :
    (runSends env fs mid date ms1 (initProc rand st0)).boundary =
      generateBoundary rand ∧
    (procSend env fs mid date
        (runSends env fs mid date ms1 (initProc rand st0)) m1).2 =
      send env (runSends env fs mid date ms1 (initProc rand st0)).mailer
        fs mid date (generateBoundary rand) m1 ∧
    (procSend env fs mid date
        (runSends env fs mid date ms2 (initProc rand st0)) m2).2 =
      send env (runSends env fs mid date ms2 (initProc rand st0)).mailer
        fs mid date (generateBoundary rand) m2 := by
  have h1 := runSends_boundary env fs mid date ms1 (initProc rand st0)
  have h2 := runSends_boundary env fs mid date ms2 (initProc rand st0)
  simp only [initProc] at h1 h2 ⊢
  refine ⟨h1, ?_, ?_⟩
  · simp only [procSend, h1]
  · simp only [procSend, h2]

/-! ## Witnesses -/

/-- C4 witness: the spec §8 plain-text scenario message. -/
theorem C4_plain_envelope_witness :
    mPlainScenario.Attachments = [] ∧ mPlainScenario.HTML = "" ∧
    (payload fsNone "M" "D" "B" mPlainScenario =
      some (commonHeaders "M" "D" mPlainScenario ++
        ("Content-Type: text/plain; charset=UTF-8" ++ crlf ++
         "Content-Transfer-Encoding: quoted-printable" ++ crlf) ++
        "Subject: " ++ mPlainScenario.Subject ++ crlf ++
        (if mPlainScenario.Text ≠ "" then
          crlf ++ mPlainScenario.Text ++ crlf else "")) ∧
     ∀ b2, payload fsNone "M" "D" b2 mPlainScenario =
       payload fsNone "M" "D" "B" mPlainScenario) :=
  ⟨rfl, rfl, C4_plain_envelope fsNone "M" "D" "B" mPlainScenario rfl rfl⟩

/-- C5 witness: a concrete text-plus-html message. -/
theorem C5_alternative_two_parts_witness :
    mAlt.Attachments = [] ∧ mAlt.Text ≠ "" ∧ mAlt.HTML ≠ "" ∧
    payload fsNone "M" "D" "B" mAlt =
      some (commonHeaders "M" "D" mAlt ++
        ("Content-Type: multipart/alternative;" ++ crlf ++
         " boundary=" ++ "B" ++ crlf) ++
        "Subject: " ++ mAlt.Subject ++ crlf ++
        crlf ++ openDelim "B" ++
        ctPlain ++ crlf ++ mAlt.Text ++ crlf ++ openDelim "B" ++
        ctHtml ++ crlf ++ mAlt.HTML ++ crlf ++ openDelim "B") :=
  ⟨rfl, by decide, by decide,
   C5_alternative_two_parts fsNone "M" "D" "B" mAlt rfl (by decide) (by decide)⟩

/-- C3 witness: the spec §8 attachment scenario, bytes `AB` = [65, 66]. -/
theorem C3_mixed_base64_roundtrip_witness :
    mAttScenario.Attachments ≠ [] ∧
    (∀ a ∈ mAttScenario.Attachments,
      ∃ bs, a.Content = some bs ∧ ∀ x ∈ bs, x < 256) ∧
    (payload fsNone "M" "D" "B" mAttScenario =
      some (commonHeaders "M" "D" mAttScenario ++
        ("Content-Type: multipart/mixed;" ++ crlf ++
         " boundary=" ++ "B" ++ crlf) ++
        "Subject: " ++ mAttScenario.Subject ++ crlf ++
        bodyBlock "B" mAttScenario ++
        joinLines (mAttScenario.Attachments.map
          (fun a => attChunk "B" a (a.Content.getD [])))) ∧
     ∀ a ∈ mAttScenario.Attachments,
       base64Decode (base64Encode (a.Content.getD [])) =
         some (a.Content.getD [])) := by
  have hc : ∀ a ∈ mAttScenario.Attachments,
      ∃ bs, a.Content = some bs ∧ ∀ x ∈ bs, x < 256 := by
    intro a ha
    simp only [mAttScenario, List.mem_singleton] at ha
    subst ha
    exact ⟨[65, 66], rfl, by decide⟩
  exact ⟨by decide, hc,
    C3_mixed_base64_roundtrip fsNone "M" "D" "B" mAttScenario (by decide) hc⟩

/-- C6 witness: a message with distinct To, CC and BCC entries. -/
theorem C6_rcpt_exactly_to_list_witness :
    stReady.dialed = true ∧ stReady.hasClient = true ∧
    mWithCcBcc.FromAddr ≠ "" ∧ mWithCcBcc.To ≠ [] ∧
    (rcptAddrs (send envUp stReady fsNone "M" "D" "B" mWithCcBcc).events =
      mWithCcBcc.To ∧
     ∀ a, (a ∈ mWithCcBcc.CC ∨ a ∈ mWithCcBcc.Bcc) → a ∉ mWithCcBcc.To →
       NetEvent.rcpt a ∉
         (send envUp stReady fsNone "M" "D" "B" mWithCcBcc).events) :=
  ⟨rfl, rfl, by decide, by decide,
   C6_rcpt_exactly_to_list envUp stReady fsNone "M" "D" "B" mWithCcBcc
     rfl rfl (by decide) (by decide)⟩

/-- C7 witness: a message with an empty To list. -/
theorem C7_validation_no_transaction_witness :
    (mNoTo.FromAddr = "" ∨ mNoTo.To = []) ∧
    ((∃ emsg, (send envUp stReady fsNone "M" "D" "B" mNoTo).outcome =
       Outcome.validationError emsg) ∧
     transactionFree (send envUp stReady fsNone "M" "D" "B" mNoTo).events) :=
  ⟨Or.inr rfl,
   C7_validation_no_transaction envUp stReady fsNone "M" "D" "B" mNoTo
     (Or.inr rfl)⟩

/-- C8 witness: the alternative-shape scenario with boundary token `B`. -/
theorem C8_open_boundary_delimiters_witness :
    multiPart mAlt ∧
    payload fsNone "M" "D" "B" mAlt =
      some (commonHeaders "M" "D" mAlt ++ ctAlternative "B" ++
        "Subject: " ++ mAlt.Subject ++ crlf ++
        crlf ++ openDelim "B" ++
        ctPlain ++ crlf ++ mAlt.Text ++ crlf ++ openDelim "B" ++
        ctHtml ++ crlf ++ mAlt.HTML ++ crlf ++ openDelim "B") ∧
    ("B" : String) ≠ "" ∧ '-' ∉ ("B" : String).data ∧
    ((∃ Q, (commonHeaders "M" "D" mAlt ++ ctAlternative "B" ++
        "Subject: " ++ mAlt.Subject ++ crlf ++
        crlf ++ openDelim "B" ++
        ctPlain ++ crlf ++ mAlt.Text ++ crlf ++ openDelim "B" ++
        ctHtml ++ crlf ++ mAlt.HTML ++ crlf ++ openDelim "B") =
          Q ++ openDelim "B") ∧
     ∀ R, (commonHeaders "M" "D" mAlt ++ ctAlternative "B" ++
        "Subject: " ++ mAlt.Subject ++ crlf ++
        crlf ++ openDelim "B" ++
        ctPlain ++ crlf ++ mAlt.Text ++ crlf ++ openDelim "B" ++
        ctHtml ++ crlf ++ mAlt.HTML ++ crlf ++ openDelim "B") ≠
          R ++ (closeDelim "B" ++ crlf)) :=
  ⟨by decide,
   payload_alt_eq fsNone "M" "D" "B" mAlt rfl (by decide) (by decide),
   by decide, by decide,
   C8_open_boundary_delimiters fsNone "M" "D" "B" mAlt _ (by decide)
     (payload_alt_eq fsNone "M" "D" "B" mAlt rfl (by decide) (by decide))
     (by decide) (by decide)⟩

/-- C1 witness: a message whose only attachment has absent bytes and an
unreadable source file, sent on an established session. -/
theorem C1_read_failure_before_data_write_witness :
    stReady.dialed = true ∧ stReady.hasClient = true ∧
    mBrokenAtt.FromAddr ≠ "" ∧ mBrokenAtt.To ≠ [] ∧
    payload fsNone "M" "D" "B"
      { mBrokenAtt with Subject :=
          if mBrokenAtt.Subject = "" then "无题" else mBrokenAtt.Subject } =
        none ∧
    ((send envUp stReady fsNone "M" "D" "B" mBrokenAtt).outcome =
       Outcome.payloadError ∧
     (∀ s, NetEvent.dataWrite s ∉
       (send envUp stReady fsNone "M" "D" "B" mBrokenAtt).events) ∧
     NetEvent.mail mBrokenAtt.FromAddr ∈
       (send envUp stReady fsNone "M" "D" "B" mBrokenAtt).events ∧
     (∀ a ∈ mBrokenAtt.To, NetEvent.rcpt a ∈
       (send envUp stReady fsNone "M" "D" "B" mBrokenAtt).events) ∧
     NetEvent.dataOpen ∈
       (send envUp stReady fsNone "M" "D" "B" mBrokenAtt).events) :=
  ⟨rfl, rfl, by decide, by decide, by decide,
   C1_read_failure_before_data_write envUp stReady fsNone "M" "D" "B"
     mBrokenAtt rfl rfl (by decide) (by decide) (by decide)⟩

/-- C10 witness: a never-connected session whose auto-connect fails, with a
message that passes validation. -/
theorem C10_dial_error_discarded_nil_client_witness :
    stFresh.dialed = false ∧ stFresh.hasClient = false ∧
    envDown.dialWorks = false ∧
    mPlainScenario.FromAddr ≠ "" ∧ mPlainScenario.To ≠ [] ∧
    ((send envDown stFresh fsNone "M" "D" "B" mPlainScenario).outcome =
       Outcome.nilClientPanic "Mail" ∧
     (send envDown stFresh fsNone "M" "D" "B" mPlainScenario).events =
       [NetEvent.dialAttempt] ∧
     ∀ emsg, (send envDown stFresh fsNone "M" "D" "B" mPlainScenario).outcome ≠
       Outcome.validationError emsg) :=
  ⟨rfl, rfl, rfl, by decide, by decide,
   C10_dial_error_discarded_nil_client envDown stFresh fsNone "M" "D" "B"
     mPlainScenario rfl rfl rfl (by decide) (by decide)⟩

end Xmailer
